import Mathlib

/-!
Verification of the ELE members directory scraper (clay_utilities).

The definitions below are a shallow embedding of the three Python source
files:
  * `ele_members_json_scraper.py` — the JSON-source scraper (`parse_member`,
    `determine_member_type`, `scrape_all_members`);
  * `ele_members_scraper.py` — the markup-source scraper
    (`extract_member_info`, `extract_members_from_main_page`,
    `scrape_all_members`) and its Flask search endpoint (`search_members`);
  * `railway_deploy.py` — the Clay deployment (`initialize_scraper`,
    `clay_status`, `clay_search_members`, `health_check`).

Python strings are Lean `String`s; `None`-or-string values are
`Option String`; machinery such as BeautifulSoup selector results and regex
matches is represented by the text each selector/match produced, which is
exactly what the Python code reads from them.
-/

/-- Python `str.strip()` on the left end of a character list. -/
def stripL (l : List Char) : List Char := l.dropWhile Char.isWhitespace

/-- Python `str.strip()`: whitespace removed from both ends. -/
def pyStrip (s : String) : String :=
  String.mk ((stripL ((stripL s.toList).reverse)).reverse)

/-- Python `str.lower()` (the role identifiers and queries involved are
ASCII, where `Char.toLower` agrees with Python). -/
def pyLower (s : String) : String := String.mk (s.toList.map Char.toLower)

/-- Python `s.split(c, 1)` when `c` occurs in `s`: the pieces before and
after the first occurrence of `c`; `none` when `c` does not occur. -/
def splitAtFirst (c : Char) : List Char → Option (List Char × List Char)
  | [] => none
  | x :: xs =>
    if x = c then some ([], xs)
    else
      match splitAtFirst c xs with
      | none => none
      | some (l, r) => some (x :: l, r)

/-- Whether `pat` is an initial segment of `l`. -/
def beginsWith : List Char → List Char → Bool
  | _, [] => true
  | [], _ :: _ => false
  | x :: xs, y :: ys => x = y && beginsWith xs ys

/-- Whether `pat` occurs contiguously inside `l`. -/
def hasSub : List Char → List Char → Bool
  | [], pat => pat.isEmpty
  | x :: xs, pat => beginsWith (x :: xs) pat || hasSub xs pat

/-- Python `needle in hay` on strings: substring containment. -/
def pyIn (needle hay : String) : Bool := hasSub hay.toList needle.toList

/-- Python `sep.join(items)`. -/
def joinSep (sep : String) : List String → String
  | [] => ""
  | [x] => x
  | x :: y :: xs => x ++ sep ++ joinSep sep (y :: xs)

/-- Python `s or None` for a string `s`: `None` when the string is empty. -/
def strOrNone (s : String) : Option String := if s = "" then none else some s

/-- Python `v or None` for an optional string `v`. -/
def optOrNone : Option String → Option String
  | none => none
  | some s => strOrNone s

/-- Python `v or d` for an optional string: `d` when `v` is `None` or the
empty string. -/
def pyOrStr (v : Option String) (d : String) : String :=
  match v with
  | none => d
  | some s => if s = "" then d else s

/-- The `Member` dataclass shared by both scrapers (the markup variant
simply never sets `member_type`/`badges`). -/
structure Member where
  name : String
  title : Option String := none
  company : Option String := none
  location : Option String := none
  email : Option String := none
  phone : Option String := none
  linkedin : Option String := none
  website : Option String := none
  bio : Option String := none
  profile_url : Option String := none
  member_type : Option String := none
  badges : Option String := none
deriving DecidableEq, Repr

/-- One raw member object of the `__NEXT_DATA__` JSON, holding the fields
`parse_member` reads. `member_data.get(k, '')` conflates a missing string
field with `''`, so those fields are plain strings. `socials` is the result
of `json.loads` on the `socials` field: `none` models a decode failure
(the `try` block is abandoned), an entry is the value at key `'linkedin'`
when the entry is a dict carrying that key, otherwise `none`. `role_cap`
likewise holds the decoded role list, `none` on a decode failure. -/
structure RawMember where
  display_name : String := ""
  user_email : String := ""
  position : String := ""
  socials : Option (List (Option String)) := some []
  badges : List String := []
  role_cap : Option (List String) := some []
  user_nicename : String := ""
deriving DecidableEq, Repr

/-- The `role_priority` table of `determine_member_type`, in the insertion
order of the Python dict (which iteration preserves). -/
def role_priority : List (String × String) :=
  [("ele_industry_legend", "Industry Legend"),
   ("ele_executive", "Executive"),
   ("ele_cdo", "CDO"),
   ("ele_ambassador", "Ambassador"),
   ("ele_producer", "Producer"),
   ("contributor", "Contributor"),
   ("ele_tmec", "TMEC"),
   ("ele_onboarding_buddy", "Onboarding Buddy"),
   ("rcp_partner_member", "Partner Member"),
   ("rcp_ele_member", "ELE Member"),
   ("rcp_online-only_member", "Online-Only Member"),
   ("invited", "Invited"),
   ("subscriber", "Subscriber"),
   ("member", "Member")]

/-- `ELEMembersJSONScraper.determine_member_type`. -/
def determine_member_type (roles : List String) : String :=
  if roles = [] then "Standard Member"
  else
    match role_priority.find? (fun p => roles.contains p.1) with
    | some p => p.2
    | none => joinSep ", " roles

/-- The `for social in socials` loop of `parse_member`: `acc` is the
current value of the `linkedin` variable. A dict with a `linkedin` key
always assigns, but the loop only breaks on a truthy value. -/
def scanLinkedin : List (Option String) → Option String → Option String
  | [], acc => acc
  | none :: rest, acc => scanLinkedin rest acc
  | some v :: rest, _acc => if v = "" then scanLinkedin rest (some v) else some v

/-- The `linkedin` extraction of `parse_member` over the decoded socials. -/
def extract_linkedin (socials : Option (List (Option String))) : Option String :=
  match socials with
  | none => none
  | some entries => scanLinkedin entries none

/-- The title/company computation of `parse_member`: an empty `position`
sets neither; a `position` containing `'@'` is split at the first
occurrence, both halves stripped; otherwise the whole string is the title. -/
def split_position (position : String) : Option String × Option String :=
  if position = "" then (none, none)
  else
    match splitAtFirst '@' position.toList with
    | some (l, r) => (some (pyStrip (String.mk l)), some (pyStrip (String.mk r)))
    | none => (some position, none)

/-- `ELEMembersJSONScraper.parse_member`: `None` exactly when
`display_name` is falsy, otherwise the normalized `Member`. -/
def parse_member (base_url : String) (m : RawMember) : Option Member :=
  if m.display_name = "" then none
  else
    some
      { name := m.display_name,
        title := (split_position m.position).1,
        company := (split_position m.position).2,
        email := strOrNone m.user_email,
        linkedin := optOrNone (extract_linkedin m.socials),
        profile_url :=
          if m.user_nicename = "" then none
          else some (base_url ++ "/members/" ++ m.user_nicename),
        member_type := some (determine_member_type (m.role_cap.getD [])),
        badges := if m.badges = [] then none else some (joinSep ", " m.badges) }

/-- One run of `ELEMembersJSONScraper.scrape_all_members` as a transition
on the scraper's `self.members` list. `none` models a run whose fetch, tag
lookup or JSON decode failed (the except branch returns `[]` leaving
`self.members` untouched); `some raws` a run that found the member array.
Each parsed member is appended; the list is never cleared. -/
def scrape_all_members_json (base_url : String) (st : List Member) :
    Option (List RawMember) → List Member
  | none => st
  | some raws => st ++ raws.filterMap (parse_member base_url)

/-- What `ELEMembersScraper.extract_member_info` reads from a profile page:
for each selector list, the `select_one` results in selector order (`none` =
no element matched, `some t` = an element matched whose stripped text is
`t`); for the regex searches and href lookups, the matched text/href when
one was found. -/
structure Soup where
  nameTexts : List (Option String) := []
  titleTexts : List (Option String) := []
  companyTexts : List (Option String) := []
  locationTexts : List (Option String) := []
  emailMatch : Option String := none
  phoneMatch : Option String := none
  linkedinHref : Option String := none
  websiteHref : Option String := none
  bioTexts : List (Option String) := []
  paragraphTexts : List String := []
deriving DecidableEq, Repr

/-- The name loop of `extract_member_info`: the first selector whose element
exists and has non-empty stripped text wins; `""` when none does (the
`Member` is initialized with `name=""`). -/
def pickName : List (Option String) → String
  | [] => ""
  | none :: rest => pickName rest
  | some t :: rest => if t = "" then pickName rest else t

/-- The title/company/location/bio selector loops of `extract_member_info`:
the first selector whose element exists wins, whatever its text. -/
def pickFirst : List (Option String) → Option String
  | [] => none
  | none :: rest => pickFirst rest
  | some t :: _ => some t

/-- The boilerplate filter of the bio fallback in `extract_member_info`. -/
def isBoilerplate (t : String) : Bool :=
  ["copyright", "privacy", "terms", "cookie"].any (fun k => pyIn k (pyLower t))

/-- The paragraph fallback of the bio extraction: the first paragraph whose
text is longer than 50 characters and is not boilerplate. -/
def bioFallback (ps : List String) : Option String :=
  ps.find? (fun t => decide (t.length > 50) && !isBoilerplate t)

/-- The full bio computation of `extract_member_info`: the selector result
if truthy; the fallback runs when the selector result is `None` or `""`
(Python falsiness), and an assigned `""` survives a fruitless fallback. -/
def computeBio (bt : List (Option String)) (ps : List String) : Option String :=
  match pickFirst bt with
  | none => bioFallback ps
  | some t =>
    if t = "" then
      match bioFallback ps with
      | some u => some u
      | none => some t
    else some t

/-- `ELEMembersScraper.extract_member_info`: the member built from the
selector results, returned only when the name ended up non-empty (the
final `return member if member.name else None`). -/
def extract_member_info (s : Soup) (profile_url : String) : Option Member :=
  if pickName s.nameTexts = "" then none
  else
    some
      { name := pickName s.nameTexts,
        title := pickFirst s.titleTexts,
        company := pickFirst s.companyTexts,
        location := pickFirst s.locationTexts,
        email := s.emailMatch,
        phone := s.phoneMatch,
        linkedin := s.linkedinHref,
        website := s.websiteHref,
        bio := computeBio s.bioTexts s.paragraphTexts,
        profile_url := some profile_url }

/-- What `extract_members_from_main_page` reads from one member-card
element: the stripped text of each `select_one` result (`none` = no match),
the email regex match over the card's text, and the linkedin href. -/
structure CardElem where
  nameText : Option String := none
  titleText : Option String := none
  companyText : Option String := none
  locationText : Option String := none
  emailMatch : Option String := none
  linkedinHref : Option String := none
deriving DecidableEq, Repr

/-- The member built from one card in `extract_members_from_main_page`:
`name` starts as `""` and each field is assigned when its element exists. -/
def card_to_member (c : CardElem) : Member :=
  { name := c.nameText.getD "",
    title := c.titleText,
    company := c.companyText,
    location := c.locationText,
    email := c.emailMatch,
    linkedin := c.linkedinHref }

/-- `ELEMembersScraper.extract_members_from_main_page` over the card
elements the selectors collected: cards whose name text is non-empty. -/
def extract_members_from_main_page (cards : List CardElem) : List Member :=
  (cards.map card_to_member).filter (fun m => m.name != "")

/-- The shape of one run of `ELEMembersScraper.scrape_all_members`:
`fetchFail` = the directory page could not be fetched (returns `[]`);
`fallback` = no member links were found, so members are extracted from the
main page and returned without being stored in `self.members`;
`profiles` = one fetched page (or a fetch failure) per member link. -/
inductive MarkupRunInput where
  | fetchFail : MarkupRunInput
  | fallback : List CardElem → MarkupRunInput
  | profiles : List (Option Soup × String) → MarkupRunInput

/-- One run of `ELEMembersScraper.scrape_all_members` as a transition on
`self.members`: only the profile-page path appends to the stored list, and
the list is never cleared. -/
def scrape_all_members_markup (st : List Member) : MarkupRunInput → List Member
  | .fetchFail => st
  | .fallback _ => st
  | .profiles pages =>
    st ++ pages.filterMap (fun pg =>
      match pg.1 with
      | none => none
      | some sp => extract_member_info sp pg.2)

/-- A response body of the Flask search endpoint in `ele_members_scraper.py`:
either `{'error': msg}` or the `{'query', 'count', 'results'}` envelope
(the count is the length of the results). -/
inductive ApiBody where
  | errObj : String → ApiBody
  | searchObj : String → List Member → ApiBody
deriving DecidableEq, Repr

/-- One disjunct of the search match in `search_members`: Python
`member.f and query in member.f.lower()` for an optional field `f`. -/
def opt_field_matches (query : String) : Option String → Bool
  | none => false
  | some t => (t != "") && pyIn query (pyLower t)

/-- The per-member condition of `search_members`: the (already lowercased)
query occurs in the name, title, company or location. -/
def member_matches (query : String) (m : Member) : Bool :=
  pyIn query (pyLower m.name) ||
  opt_field_matches query m.title ||
  opt_field_matches query m.company ||
  opt_field_matches query m.location

/-- The `/api/members/search` handler `search_members` of
`ele_members_scraper.py`: `request.args.get('q', '')` makes a missing
parameter the empty string; after lowercasing, a falsy query yields the
400 error object, anything else the filtered listing (status 200). -/
def search_members (members : List Member) (qparam : Option String) :
    ApiBody × Nat :=
  let query := pyLower (qparam.getD "")
  if query = "" then (ApiBody.errObj "Query parameter required", 400)
  else (ApiBody.searchObj query (members.filter (member_matches query)), 200)

/-- One Clay-compatible member dictionary as built by `initialize_scraper`
in `railway_deploy.py` (every field a string, absent values as `""`). -/
structure ClayMember where
  id : String := ""
  name : String := ""
  title : String := ""
  company : String := ""
  location : String := ""
  email : String := ""
  phone : String := ""
  linkedin_url : String := ""
  website_url : String := ""
  bio : String := ""
  profile_url : String := ""
  member_type : String := ""
  badges : String := ""
  source : String := ""
deriving DecidableEq, Repr

/-- The `id` of a Clay dictionary:
`member.name.lower().replace(" ", "-").replace("'", "")`. -/
def clayId (nm : String) : String :=
  String.mk (((pyLower nm).toList.map (fun c => if c = ' ' then '-' else c)).filter
    (fun c => c ≠ '\''))

/-- One member converted to its Clay dictionary by `initialize_scraper`. -/
def toClay (m : Member) : ClayMember :=
  { id := clayId m.name,
    name := m.name,
    title := pyOrStr m.title "",
    company := pyOrStr m.company "",
    location := pyOrStr m.location "",
    email := pyOrStr m.email "",
    phone := pyOrStr m.phone "",
    linkedin_url := pyOrStr m.linkedin "",
    website_url := pyOrStr m.website "",
    bio := pyOrStr m.bio "",
    profile_url := pyOrStr m.profile_url "",
    member_type := pyOrStr m.member_type "Standard Member",
    badges := pyOrStr m.badges "",
    source := "ELE LLC Directory" }

/-- A JSON value appearing in a Clay response object. -/
inductive JVal where
  | s : String → JVal
  | b : Bool → JVal
  | n : Nat → JVal
deriving DecidableEq, Repr

/-- A response body of `railway_deploy.py`: a bare member array or a JSON
object of scalar fields. -/
inductive ClayBody where
  | arr : List ClayMember → ClayBody
  | obj : List (String × JVal) → ClayBody
deriving DecidableEq, Repr

/-- The module-level state of `railway_deploy.py`: whether the global
`scraper` has been constructed, and the cached `members_data`. -/
structure ProcState where
  scraperInit : Bool
  members_data : List ClayMember
deriving DecidableEq, Repr

/-- `railway_deploy.initialize_scraper`: when the scraper is already
constructed it returns the cached data untouched; otherwise it constructs
one, runs a scrape against the site (`world` is what that scrape finds —
the fetch this performs is the returned flag) and caches the converted
dictionaries. Returns (new state, returned members, whether a fetch of the
source site was performed). -/
def initialize_scraper (world : Option (List RawMember)) (st : ProcState) :
    ProcState × List ClayMember × Bool :=
  if st.scraperInit then (st, st.members_data, false)
  else
    let scraped := scrape_all_members_json "https://www.ele.llc" [] world
    let data := scraped.map toClay
    ({ scraperInit := true, members_data := data }, data, true)

/-- The `/clay/status` handler `clay_status`: it calls
`initialize_scraper` first and reports the member count. Returns (new
state, body, whether a fetch of the source site was performed). -/
def clay_status (world : Option (List RawMember)) (st : ProcState) :
    ProcState × ClayBody × Bool :=
  let r := initialize_scraper world st
  (r.1,
   ClayBody.obj
     [("success", JVal.b true),
      ("status", JVal.s "active"),
      ("service", JVal.s "ELE LLC Members API (Railway - Real Data)"),
      ("version", JVal.s "2.0.0"),
      ("members_count", JVal.n r.2.1.length),
      ("message", JVal.s "API is running with real ELE LLC member data")],
   r.2.2)

/-- The `/` handler `health_check` of `railway_deploy.py`: a constant body,
no scraper interaction. Returns (state, body, fetch performed). -/
def health_check (st : ProcState) : ProcState × ClayBody × Bool :=
  (st,
   ClayBody.obj
     [("status", JVal.s "healthy"),
      ("service", JVal.s "ELE LLC Members API"),
      ("message", JVal.s "API is running on Railway! 🚀")],
   false)

/-- The `/clay/members/search` handler `clay_search_members`: a falsy
query yields `(jsonify([]), 400)`; otherwise the members whose name or
title contains the lowercased query (no other field is consulted). -/
def clay_search_members (members : List ClayMember) (qparam : Option String) :
    ClayBody × Nat :=
  let query := pyLower (qparam.getD "")
  if query = "" then (ClayBody.arr [], 400)
  else
    (ClayBody.arr (members.filter (fun m =>
      pyIn query (pyLower m.name) || pyIn query (pyLower m.title))), 200)

/-! ### Helper lemmas -/

theorem string_toList_eq_nil (s : String) : s.toList = [] ↔ s = "" := by
  cases s with
  | mk l =>
    constructor
    · intro h
      simp [String.toList] at h
      rw [h]
    · intro h
      rw [h]; rfl

theorem mk_map_toLower_eq_empty (l : List Char) :
    String.mk (List.map Char.toLower l) = "" ↔ l = [] := by
  constructor
  · intro h
    have h2 : (String.mk (List.map Char.toLower l)).data = ("" : String).data := by
      rw [h]
    simp at h2
    exact h2
  · intro h
    rw [h]; rfl

theorem pyLower_eq_empty (s : String) : pyLower s = "" ↔ s = "" := by
  rw [pyLower, mk_map_toLower_eq_empty, string_toList_eq_nil]

theorem pyIn_empty_hay (q : String) (hq : q ≠ "") : pyIn q "" = false := by
  rw [pyIn]
  have h1 : ("" : String).toList = [] := rfl
  rw [h1, hasSub]
  simp [List.isEmpty_iff]
  intro h
  exact hq ((string_toList_eq_nil q).mp h)

theorem strOrNone_ne_some_empty (s : String) : strOrNone s ≠ some "" := by
  rw [strOrNone]
  by_cases h : s = ""
  · simp [h]
  · simp [h]

theorem optOrNone_ne_some_empty (v : Option String) : optOrNone v ≠ some "" := by
  cases v with
  | none => simp [optOrNone]
  | some s => exact strOrNone_ne_some_empty s

theorem splitAtFirst_eq_none (c : Char) (l : List Char) :
    splitAtFirst c l = none ↔ l.contains c = false := by
  induction l with
  | nil => simp [splitAtFirst]
  | cons x xs ih =>
    by_cases hx : x = c
    · subst hx
      simp [splitAtFirst]
    · rw [splitAtFirst, if_neg hx]
      cases h : splitAtFirst c xs with
      | none =>
        have hc : xs.contains c = false := ih.mp h
        simp only [List.contains_cons]
        simp [Ne.symm hx]
        simpa using hc
      | some p =>
        obtain ⟨l1, r1⟩ := p
        have hc : c ∈ xs := by
          by_contra hne
          have h0 : splitAtFirst c xs = none := ih.mpr (by simpa using hne)
          rw [h] at h0
          exact Option.noConfusion h0
        simp [List.contains_cons, hc]

theorem splitAtFirst_append (c : Char) (l r : List Char)
    (h : l.contains c = false) :
    splitAtFirst c (l ++ c :: r) = some (l, r) := by
  induction l with
  | nil => simp [splitAtFirst]
  | cons x xs ih =>
    simp only [List.contains_cons, Bool.or_eq_false_iff] at h
    have hx : x ≠ c := by
      intro he
      rw [he] at h
      simp at h
    rw [List.cons_append, splitAtFirst, if_neg hx, ih h.2]

theorem find?_eq_head?_filter {α : Type} (p : α → Bool) (l : List α) :
    l.find? p = (l.filter p).head? := by
  induction l with
  | nil => rfl
  | cons x xs ih =>
    cases h : p x
    · rw [List.find?_cons_of_neg _ (by simp [h]),
        List.filter_cons_of_neg (by simp [h]), ih]
    · rw [List.find?_cons_of_pos _ h, List.filter_cons_of_pos h, List.head?_cons]

theorem parse_member_some {b : String} {m : RawMember} {r : Member}
    (h : parse_member b m = some r) :
    m.display_name ≠ "" ∧
    r.name = m.display_name ∧
    r.title = (split_position m.position).1 ∧
    r.company = (split_position m.position).2 ∧
    r.email = strOrNone m.user_email ∧
    r.linkedin = optOrNone (extract_linkedin m.socials) ∧
    r.location = none ∧ r.phone = none ∧ r.website = none ∧ r.bio = none := by
  by_cases hd : m.display_name = ""
  · rw [parse_member, if_pos hd] at h
    exact Option.noConfusion h
  · rw [parse_member, if_neg hd] at h
    injection h with h
    subst h
    exact ⟨hd, rfl, rfl, rfl, rfl, rfl, rfl, rfl, rfl, rfl⟩

theorem extract_member_info_some {sp : Soup} {u : String} {r : Member}
    (h : extract_member_info sp u = some r) : r.name ≠ "" := by
  by_cases hn : pickName sp.nameTexts = ""
  · rw [extract_member_info, if_pos hn] at h
    exact Option.noConfusion h
  · rw [extract_member_info, if_neg hn] at h
    injection h with h
    subst h
    exact hn

theorem foldl_preserve {σ α : Type} (f : σ → α → σ) (P : σ → Prop)
    (hf : ∀ s a, P s → P (f s a)) :
    ∀ (l : List α) (s : σ), P s → P (l.foldl f s) := by
  intro l
  induction l with
  | nil => intro s h; exact h
  | cons x xs ih =>
    intro s h
    exact ih _ (hf _ _ h)

/-! ### Claim theorems -/

/-- C1: the member-type classifier returns the literal "Standard Member" on
an empty role list; otherwise the label of the first matching entry of the
fixed fourteen-entry priority table, scanned in table order (so
["ele_ambassador", "member"] yields "Ambassador"); and when no role matches
any table entry, the raw role identifiers joined with ", " (so
["unknown_role_x"] yields "unknown_role_x" verbatim). -/
theorem C1_member_type_classifier (roles : List String) :
    role_priority.length = 14 ∧
    determine_member_type [] = "Standard Member" ∧
    determine_member_type ["ele_ambassador", "member"] = "Ambassador" ∧
    determine_member_type ["unknown_role_x"] = "unknown_role_x" ∧
    (roles ≠ [] →
      determine_member_type roles =
        match (role_priority.filter (fun p => roles.contains p.1)).head? with
        | some p => p.2
        | none => joinSep ", " roles) := by
  refine ⟨by decide, by decide, by decide, by decide, ?_⟩
  intro hne
  rw [determine_member_type, if_neg hne, find?_eq_head?_filter]

/-- C2: the title/company split of the JSON-source normalizer. A position
containing '@' is split at the first occurrence only — against any
decomposition `l ++ '@' :: rr` with no '@' in `l`, the left part trimmed is
the title and the right part trimmed is the company (so "A @ B @ C" gives
title "A" and company "B @ C"); with no '@' the whole (non-empty) string
becomes the title and the company stays absent. -/
theorem C2_position_split (b : String) (m : RawMember) (r : Member)
    (h : parse_member b m = some r) :
    (m.position = "A @ B @ C" → r.title = some "A" ∧ r.company = some "B @ C") ∧
    (m.position ≠ "" → m.position.toList.contains '@' = false →
      r.title = some m.position ∧ r.company = none) ∧
    (∀ l rr, m.position.toList = l ++ '@' :: rr → l.contains '@' = false →
      r.title = some (pyStrip (String.mk l)) ∧
      r.company = some (pyStrip (String.mk rr))) := by
  obtain ⟨-, -, ht, hc, -⟩ := parse_member_some h
  refine ⟨?_, ?_, ?_⟩
  · intro hp
    rw [ht, hc, hp]
    exact ⟨by decide, by decide⟩
  · intro hne hnc
    have hs := (splitAtFirst_eq_none '@' m.position.toList).mpr hnc
    rw [ht, hc, split_position, if_neg hne, hs]
    exact ⟨rfl, rfl⟩
  · intro l rr hdec hnc
    have hpos : m.position ≠ "" := by
      intro he
      rw [he] at hdec
      have h0 : ("" : String).toList = [] := rfl
      rw [h0] at hdec
      exact absurd hdec (by simp)
    have hs := splitAtFirst_append '@' l rr hnc
    rw [← hdec] at hs
    rw [ht, hc, split_position, if_neg hpos, hs]
    exact ⟨rfl, rfl⟩

/-- C2 witness: on the raw member with position "A @ B @ C" and display
name "X", the parsed record's title is "A" and its company is "B @ C". -/
theorem C2_position_split_witness :
    ({ name := "X", title := some "A", company := some "B @ C",
       member_type := some "Standard Member" } : Member).title = some "A" ∧
    ({ name := "X", title := some "A", company := some "B @ C",
       member_type := some "Standard Member" } : Member).company = some "B @ C" :=
  (C2_position_split "u" { display_name := "X", position := "A @ B @ C" }
    { name := "X", title := some "A", company := some "B @ C",
      member_type := some "Standard Member" } (by decide)).1 (by decide)

/-- C3 (amended): the JSON-source normalizer yields exactly one record, with
name equal to the display_name verbatim (no trimming is applied), whenever
display_name is non-empty, and no record otherwise. -/
theorem C3_name_verbatim (b : String) (m : RawMember) :
    (parse_member b m).map Member.name =
      if m.display_name = "" then none else some m.display_name := by
  by_cases hd : m.display_name = ""
  · rw [parse_member, if_pos hd, if_pos hd]
    rfl
  · rw [parse_member, if_neg hd, if_neg hd]
    rfl

/-- C3 counterexample: for display_name " John " the produced record's name
is " John " — the display_name verbatim — which differs from the trimmed
display_name "John", so the name is not the trimmed display_name. -/
theorem C3_trim_counterexample :
    (parse_member "https://www.ele.llc"
        { display_name := " John " }).map Member.name = some " John " ∧
    pyStrip " John " = "John" ∧
    (" John " : String) ≠ "John" := by decide

/-- C4: under any sequence of scrape runs on any inputs — for the JSON
scraper and for the markup scraper alike — every record held in the
scraper's members collection has a non-empty name. -/
theorem C4_repository_names_nonempty (b : String)
    (jruns : List (Option (List RawMember))) (mruns : List MarkupRunInput)
    (r : Member) :
    (r ∈ jruns.foldl (scrape_all_members_json b) [] → r.name ≠ "") ∧
    (r ∈ mruns.foldl scrape_all_members_markup [] → r.name ≠ "") := by
  constructor
  · intro hr
    refine foldl_preserve (scrape_all_members_json b)
      (fun st => ∀ x ∈ st, x.name ≠ "") ?_ jruns [] (by simp) r hr
    intro st inp hst
    cases inp with
    | none => exact hst
    | some raws =>
      intro x hx
      rcases List.mem_append.mp hx with hx1 | hx2
      · exact hst x hx1
      · obtain ⟨raw, -, hp⟩ := List.mem_filterMap.mp hx2
        obtain ⟨hd, hn, -⟩ := parse_member_some hp
        rw [hn]
        exact hd
  · intro hr
    refine foldl_preserve scrape_all_members_markup
      (fun st => ∀ x ∈ st, x.name ≠ "") ?_ mruns [] (by simp) r hr
    intro st inp hst
    cases inp with
    | fetchFail => exact hst
    | fallback cards => exact hst
    | profiles pages =>
      intro x hx
      rcases List.mem_append.mp hx with hx1 | hx2
      · exact hst x hx1
      · obtain ⟨pg, -, hp⟩ := List.mem_filterMap.mp hx2
        cases hpg : pg.1 with
        | none =>
          rw [hpg] at hp
          exact Option.noConfusion hp
        | some sp =>
          rw [hpg] at hp
          exact extract_member_info_some hp

/-- C5 (amended): for JSON-source records, email and linkedin are never the
empty string, and location, phone, website and bio are always absent; the
never-empty-string guarantee fails only for title and company, which can be
present-but-empty, and only when the position string contains '@'. -/
theorem C5_json_optional_fields (b : String) (m : RawMember) (r : Member)
    (h : parse_member b m = some r) :
    r.email ≠ some "" ∧
    r.linkedin ≠ some "" ∧
    r.location = none ∧ r.phone = none ∧ r.website = none ∧ r.bio = none ∧
    ((r.title = some "" ∨ r.company = some "") →
      m.position.toList.contains '@' = true) := by
  obtain ⟨-, -, ht, hc, he, hl, hloc, hph, hw, hb⟩ := parse_member_some h
  refine ⟨?_, ?_, hloc, hph, hw, hb, ?_⟩
  · rw [he]
    exact strOrNone_ne_some_empty m.user_email
  · rw [hl]
    exact optOrNone_ne_some_empty (extract_linkedin m.socials)
  · intro hemp
    by_contra hnc
    have hnc2 : m.position.toList.contains '@' = false := by
      cases h2 : m.position.toList.contains '@'
      · rfl
      · exact absurd h2 hnc
    have hs := (splitAtFirst_eq_none '@' m.position.toList).mpr hnc2
    by_cases hpos : m.position = ""
    · rw [ht, hc, split_position, if_pos hpos] at hemp
      rcases hemp with h1 | h1 <;> exact Option.noConfusion h1
    · rw [ht, hc, split_position, if_neg hpos, hs] at hemp
      rcases hemp with h1 | h1
      · injection h1 with h1
        exact hpos h1
      · exact Option.noConfusion h1

/-- C5 witness: the record parsed from display name "N", position
"Dev @ Shop", email "a@b.co" satisfies the amended field guarantees. -/
theorem C5_json_optional_fields_witness :
    (({ name := "N", title := some "Dev", company := some "Shop",
        email := some "a@b.co",
        member_type := some "Standard Member" } : Member).email ≠ some "" ∧
     ({ name := "N", title := some "Dev", company := some "Shop",
        email := some "a@b.co",
        member_type := some "Standard Member" } : Member).linkedin ≠ some "" ∧
     ({ name := "N", title := some "Dev", company := some "Shop",
        email := some "a@b.co",
        member_type := some "Standard Member" } : Member).location = none ∧
     ({ name := "N", title := some "Dev", company := some "Shop",
        email := some "a@b.co",
        member_type := some "Standard Member" } : Member).phone = none ∧
     ({ name := "N", title := some "Dev", company := some "Shop",
        email := some "a@b.co",
        member_type := some "Standard Member" } : Member).website = none ∧
     ({ name := "N", title := some "Dev", company := some "Shop",
        email := some "a@b.co",
        member_type := some "Standard Member" } : Member).bio = none ∧
     ((({ name := "N", title := some "Dev", company := some "Shop",
          email := some "a@b.co",
          member_type := some "Standard Member" } : Member).title = some "" ∨
       ({ name := "N", title := some "Dev", company := some "Shop",
          email := some "a@b.co",
          member_type := some "Standard Member" } : Member).company = some "") →
       ({ display_name := "N", position := "Dev @ Shop",
          user_email := "a@b.co" } : RawMember).position.toList.contains '@'
         = true)) :=
  C5_json_optional_fields "u"
    { display_name := "N", position := "Dev @ Shop", user_email := "a@b.co" }
    { name := "N", title := some "Dev", company := some "Shop",
      email := some "a@b.co", member_type := some "Standard Member" }
    (by decide)

/-- C5 counterexample: a JSON-source record whose position is "@Acme Corp"
gets title present but equal to the empty string, and a markup-source
record whose title element exists with empty text likewise gets an
empty-string title — optional fields are not always absent-or-non-empty. -/
theorem C5_empty_title_counterexample :
    (parse_member "u" { display_name := "X", position := "@Acme Corp" }).map
      Member.title = some (some "") ∧
    (extract_member_info
        { nameTexts := [some "X"], titleTexts := [some ""] } "u").map
      Member.title = some (some "") := by decide

/-- The search criterion as the specification words it: the query appears,
case-insensitively, as a substring of the (optional) field; an absent field
never matches. -/
def specFieldMatch (q : String) : Option String → Bool
  | none => false
  | some t => pyIn (pyLower q) (pyLower t)

theorem opt_field_matches_eq_spec (q : String) (hq : pyLower q ≠ "")
    (f : Option String) : opt_field_matches (pyLower q) f = specFieldMatch q f := by
  cases f with
  | none => rfl
  | some t =>
    by_cases ht : t = ""
    · subst ht
      show ((("" : String) != "") && pyIn (pyLower q) (pyLower "")) = _
      have h0 : pyLower "" = "" := rfl
      rw [h0, pyIn_empty_hay _ hq]
      simp [specFieldMatch]
      rw [h0, pyIn_empty_hay _ hq]
    · show ((t != "") && pyIn (pyLower q) (pyLower t)) = _
      simp [specFieldMatch, ht]

theorem member_matches_eq_spec (q : String) (hq : pyLower q ≠ "") (m : Member) :
    member_matches (pyLower q) m =
      (specFieldMatch q (some m.name) || specFieldMatch q m.title ||
       specFieldMatch q m.company || specFieldMatch q m.location) := by
  rw [member_matches, opt_field_matches_eq_spec q hq,
    opt_field_matches_eq_spec q hq, opt_field_matches_eq_spec q hq]
  rfl

/-- C6 (amended): with a non-empty query, the Flask scraper endpoint
returns the 200 listing of exactly those records in which the query occurs
case-insensitively in name, title, company or location (absent fields never
match); the Clay endpoint, however, returns the records matched on name or
title only — it never consults company or location. -/
theorem C6_search_fields (members : List Member) (cms : List ClayMember)
    (q : String) (m : Member) (c : ClayMember) (hq : q ≠ "") :
    search_members members (some q) =
      (ApiBody.searchObj (pyLower q)
        (members.filter (member_matches (pyLower q))), 200) ∧
    (m ∈ members.filter (member_matches (pyLower q)) ↔
      m ∈ members ∧
        (specFieldMatch q (some m.name) || specFieldMatch q m.title ||
         specFieldMatch q m.company || specFieldMatch q m.location) = true) ∧
    clay_search_members cms (some q) =
      (ClayBody.arr (cms.filter (fun cm =>
        pyIn (pyLower q) (pyLower cm.name) ||
        pyIn (pyLower q) (pyLower cm.title))), 200) ∧
    (c ∈ cms.filter (fun cm =>
        pyIn (pyLower q) (pyLower cm.name) ||
        pyIn (pyLower q) (pyLower cm.title)) ↔
      c ∈ cms ∧
        (specFieldMatch q (some c.name) || specFieldMatch q (some c.title))
          = true) := by
  have hlq : pyLower q ≠ "" := fun h => hq ((pyLower_eq_empty q).mp h)
  refine ⟨?_, ?_, ?_, ?_⟩
  · have he : search_members members (some q) =
        if pyLower q = "" then (ApiBody.errObj "Query parameter required", 400)
        else (ApiBody.searchObj (pyLower q)
          (members.filter (member_matches (pyLower q))), 200) := rfl
    rw [he, if_neg hlq]
  · rw [List.mem_filter, member_matches_eq_spec q hlq]
  · have he : clay_search_members cms (some q) =
        if pyLower q = "" then (ClayBody.arr [], 400)
        else (ClayBody.arr (cms.filter (fun cm =>
          pyIn (pyLower q) (pyLower cm.name) ||
          pyIn (pyLower q) (pyLower cm.title))), 200) := rfl
    rw [he, if_neg hlq]
  · rw [List.mem_filter]
    rfl

/-- C6 witness: with query "a" and an empty repository the scraper search
endpoint returns the 200 envelope of the filtered (empty) listing. -/
theorem C6_search_fields_witness :
    search_members [] (some "a") =
      (ApiBody.searchObj (pyLower "a")
        (List.filter (member_matches (pyLower "a")) []), 200) :=
  (C6_search_fields [] [] "a" { name := "" } {} (by decide)).1

/-- C6 counterexample: a Clay member whose company alone contains the query
"acme" (the query does occur, case-insensitively, in "Acme Corp") is not
returned by the Clay search endpoint — its result array is empty. -/
theorem C6_clay_company_counterexample :
    pyIn "acme" (pyLower "Acme Corp") = true ∧
    clay_search_members
      [{ name := "Jane Roe", title := "", company := "Acme Corp" }]
      (some "acme") = (ClayBody.arr [], 200) := by decide

/-- C7 (amended): a scrape run never replaces the held collection — it
appends the run's records to it: the state after a run extends the state
before it, and every record held before a run is still held after it, for
the JSON scraper and the markup scraper alike. -/
theorem C7_runs_append (b : String) (st : List Member)
    (jin : Option (List RawMember)) (mi : MarkupRunInput) (r : Member) :
    (∃ t, scrape_all_members_json b st jin = st ++ t) ∧
    (∃ t, scrape_all_members_markup st mi = st ++ t) ∧
    (r ∈ st → r ∈ scrape_all_members_json b st jin) ∧
    (r ∈ st → r ∈ scrape_all_members_markup st mi) := by
  have h1 : ∃ t, scrape_all_members_json b st jin = st ++ t := by
    cases jin with
    | none => exact ⟨[], by simp [scrape_all_members_json]⟩
    | some raws => exact ⟨_, rfl⟩
  have h2 : ∃ t, scrape_all_members_markup st mi = st ++ t := by
    cases mi with
    | fetchFail => exact ⟨[], by simp [scrape_all_members_markup]⟩
    | fallback cards => exact ⟨[], by simp [scrape_all_members_markup]⟩
    | profiles pages => exact ⟨_, rfl⟩
  refine ⟨h1, h2, ?_, ?_⟩
  · intro hr
    obtain ⟨t, ht⟩ := h1
    rw [ht]
    exact List.mem_append_left t hr
  · intro hr
    obtain ⟨t, ht⟩ := h2
    rw [ht]
    exact List.mem_append_left t hr

/-- C7 counterexample: two successive JSON-scraper runs, the first finding
member "X" and the second member "Y", leave the collection holding both
records — the first run's record "X" remains after the second run, so the
second run did not replace the collection. -/
theorem C7_accumulation_counterexample :
    ([some [{ display_name := "X" }], some [{ display_name := "Y" }]] :
        List (Option (List RawMember))).foldl (scrape_all_members_json "u") [] =
      [{ name := "X", member_type := some "Standard Member" },
       { name := "Y", member_type := some "Standard Member" }] := by decide

/-- C8 (amended): a missing q parameter yields a 400 response on both
search endpoints — with the explanatory message "Query parameter required"
on the scraper endpoint, but a bare empty array carrying no message on the
Clay endpoint — and a request whose q is non-empty receives the filtered
200 listing (a present-but-empty q is treated like a missing one, see the
counterexample). -/
theorem C8_search_param_handling (ms : List Member) (cms : List ClayMember)
    (q : String) (hq : q ≠ "") :
    search_members ms none = (ApiBody.errObj "Query parameter required", 400) ∧
    clay_search_members cms none = (ClayBody.arr [], 400) ∧
    search_members ms (some q) =
      (ApiBody.searchObj (pyLower q)
        (ms.filter (member_matches (pyLower q))), 200) ∧
    clay_search_members cms (some q) =
      (ClayBody.arr (cms.filter (fun cm =>
        pyIn (pyLower q) (pyLower cm.name) ||
        pyIn (pyLower q) (pyLower cm.title))), 200) := by
  have hlq : pyLower q ≠ "" := fun h => hq ((pyLower_eq_empty q).mp h)
  refine ⟨rfl, rfl, ?_, ?_⟩
  · have he : search_members ms (some q) =
        if pyLower q = "" then (ApiBody.errObj "Query parameter required", 400)
        else (ApiBody.searchObj (pyLower q)
          (ms.filter (member_matches (pyLower q))), 200) := rfl
    rw [he, if_neg hlq]
  · have he : clay_search_members cms (some q) =
        if pyLower q = "" then (ClayBody.arr [], 400)
        else (ClayBody.arr (cms.filter (fun cm =>
          pyIn (pyLower q) (pyLower cm.name) ||
          pyIn (pyLower q) (pyLower cm.title))), 200) := rfl
    rw [he, if_neg hlq]

/-- C8 witness: with no q parameter both endpoints answer 400, and with
q = "x" both answer the 200 filtered listing (empty repositories). -/
theorem C8_search_param_handling_witness :
    search_members [] none = (ApiBody.errObj "Query parameter required", 400) ∧
    clay_search_members [] none = (ClayBody.arr [], 400) ∧
    search_members [] (some "x") =
      (ApiBody.searchObj (pyLower "x")
        (List.filter (member_matches (pyLower "x")) []), 200) ∧
    clay_search_members [] (some "x") =
      (ClayBody.arr (List.filter (fun cm =>
        pyIn (pyLower "x") (pyLower cm.name) ||
        pyIn (pyLower "x") (pyLower cm.title)) []), 200) :=
  C8_search_param_handling [] [] "x" (by decide)

/-- C8 counterexample: the Clay endpoint's 400 response to a missing q is a
bare empty array, not an object carrying an explanatory message; and a
request with the q parameter present but empty receives the 400 error, not
the filtered listing. -/
theorem C8_missing_q_counterexample :
    clay_search_members [] none = (ClayBody.arr [], 400) ∧
    search_members [] (some "") =
      (ApiBody.errObj "Query parameter required", 400) := by decide

/-- C9 (amended): on any already-initialized process state, a status
request performs no fetch of the source site and leaves the state
unchanged while reporting the member count and service identity — and so
does the bare health endpoint on every state — but on the initial state
(scraper not yet constructed) a status request does trigger a scrape. -/
theorem C9_status_lazy_init (world : Option (List RawMember)) (st : ProcState)
    (h : st.scraperInit = true) :
    (clay_status world st).1 = st ∧
    (clay_status world st).2.2 = false ∧
    (clay_status world st).2.1 =
      ClayBody.obj
        [("success", JVal.b true),
         ("status", JVal.s "active"),
         ("service", JVal.s "ELE LLC Members API (Railway - Real Data)"),
         ("version", JVal.s "2.0.0"),
         ("members_count", JVal.n st.members_data.length),
         ("message", JVal.s "API is running with real ELE LLC member data")] ∧
    (health_check st).1 = st ∧
    (health_check st).2.2 = false ∧
    (clay_status world { scraperInit := false, members_data := [] }).2.2
      = true := by
  have hi : initialize_scraper world st = (st, st.members_data, false) := by
    rw [initialize_scraper, if_pos h]
  refine ⟨?_, ?_, ?_, rfl, rfl, ?_⟩
  · show (initialize_scraper world st).1 = st
    rw [hi]
  · show (initialize_scraper world st).2.2 = false
    rw [hi]
  · show ClayBody.obj
        [("success", JVal.b true),
         ("status", JVal.s "active"),
         ("service", JVal.s "ELE LLC Members API (Railway - Real Data)"),
         ("version", JVal.s "2.0.0"),
         ("members_count", JVal.n (initialize_scraper world st).2.1.length),
         ("message", JVal.s "API is running with real ELE LLC member data")] = _
    rw [hi]
  · show (initialize_scraper world { scraperInit := false, members_data := [] }).2.2
        = true
    rfl

/-- C9 witness: on the initialized state with an empty cache, a status
request leaves the state unchanged. -/
theorem C9_status_lazy_init_witness :
    (clay_status none { scraperInit := true, members_data := [] }).1 =
      { scraperInit := true, members_data := [] } :=
  (C9_status_lazy_init none { scraperInit := true, members_data := [] } rfl).1

/-- C9 counterexample: on the initial process state — before any scrape —
a status request performs a fetch of the source site and mutates the
process state, so serving the status endpoint is not scrape-free. -/
theorem C9_status_scrapes_counterexample :
    (clay_status (some []) { scraperInit := false, members_data := [] }).2.2
      = true ∧
    (clay_status (some []) { scraperInit := false, members_data := [] }).1 ≠
      { scraperInit := false, members_data := [] } := by decide

/-- C10: a present-but-empty q parameter is treated exactly as a missing
one by both search endpoints — it yields the 400 response, not a success
listing — and in general a request is rejected with 400 exactly when its
query value lowercases to the empty string. -/
theorem C10_empty_query_rejected (ms : List Member) (cms : List ClayMember)
    (q : String) :
    search_members ms (some "") = search_members ms none ∧
    (search_members ms (some "")).2 = 400 ∧
    clay_search_members cms (some "") = clay_search_members cms none ∧
    (clay_search_members cms (some "")).2 = 400 ∧
    ((search_members ms (some q)).2 = 400 ↔ pyLower q = "") ∧
    ((clay_search_members cms (some q)).2 = 400 ↔ pyLower q = "") := by
  refine ⟨rfl, rfl, rfl, rfl, ?_, ?_⟩
  · have he : search_members ms (some q) =
        if pyLower q = "" then (ApiBody.errObj "Query parameter required", 400)
        else (ApiBody.searchObj (pyLower q)
          (ms.filter (member_matches (pyLower q))), 200) := rfl
    rw [he]
    by_cases hq : pyLower q = ""
    · rw [if_pos hq]
      simp [hq]
    · rw [if_neg hq]
      simp [hq]
  · have he : clay_search_members cms (some q) =
        if pyLower q = "" then (ClayBody.arr [], 400)
        else (ClayBody.arr (cms.filter (fun cm =>
          pyIn (pyLower q) (pyLower cm.name) ||
          pyIn (pyLower q) (pyLower cm.title))), 200) := rfl
    rw [he]
    by_cases hq : pyLower q = ""
    · rw [if_pos hq]
      simp [hq]
    · rw [if_neg hq]
      simp [hq]
